import Mathlib

/-
Shallow embedding of the StellarRoute risk/routing/heatmap/simulation core
(src/backend/app/services/risk_service.py, routing_service.py,
heatmap_service.py, simulation.py) over exact rational arithmetic.

Modelling conventions:
* Python floats are idealised as rationals (ℚ).
* Calls to the global random module are made explicit: every function that
  draws randomness receives the drawn values, either as a single rational
  `r` (one call to random.random(), so r ∈ [0,1)) or as a stream
  `stream : ℕ → ℚ` of successive draws, indexed in the order the source
  performs them.  random.uniform(a,b) is modelled as a + (b-a)*u with u the
  underlying random() draw, matching CPython's implementation.
* Transcendental library functions (math.sin, math.cos, math.sqrt) and the
  constant math.pi are taken as parameters (sinf, cosf, sqrtf, piQ); none of
  the verified claims depends on their actual values.
* Fallible Python code (attribute errors, division by zero, the NameError in
  find_routes) is modelled with Except String.
* Python round(x, nd) is banker's rounding (round half to even), modelled by
  pyRound; Python int(x) truncates toward zero, modelled by pyInt.
-/

namespace StellarRoute

/-- Round half to even to the nearest integer, as Python's round does. -/
def roundHalfEven (q : ℚ) : ℤ :=
  if Int.fract q < 1/2 then ⌊q⌋
  else if 1/2 < Int.fract q then ⌊q⌋ + 1
  else if ⌊q⌋ % 2 = 0 then ⌊q⌋ else ⌊q⌋ + 1

/-- Python's round(x, nd): banker's rounding at nd decimal digits. -/
def pyRound (nd : ℕ) (x : ℚ) : ℚ :=
  (roundHalfEven (x * 10 ^ nd) : ℚ) / 10 ^ nd

/-- Python's int(x): truncation toward zero. -/
def pyInt (q : ℚ) : ℤ :=
  if 0 ≤ q then ⌊q⌋ else ⌈q⌉

/-- RiskLevel enum from app/models.py. -/
inductive RiskLevel where
  | low
  | medium
  | high
deriving DecidableEq, Repr

/-- risk_service.RiskAssessmentService._calculate_geomagnetic_factor. -/
def _calculate_geomagnetic_factor (latitude : ℚ) : ℚ :=
  if |latitude| > 70 then 2
  else if |latitude| > 50 then 3/2
  else if |latitude| > 30 then 6/5
  else 1

/-- risk_service.RiskAssessmentService._get_region_factor: the risk_regions
dict is iterated in insertion order (north_america, europe, asia, south_pole,
north_pole) and the first region whose inclusive lat/lon box contains the
point wins; 1.0 outside all regions. -/
def _get_region_factor (latitude longitude : ℚ) : ℚ :=
  if 20 ≤ latitude ∧ latitude ≤ 70 ∧ -130 ≤ longitude ∧ longitude ≤ -60 then 1
  else if 35 ≤ latitude ∧ latitude ≤ 70 ∧ -10 ≤ longitude ∧ longitude ≤ 40 then 6/5
  else if 10 ≤ latitude ∧ latitude ≤ 60 ∧ 60 ≤ longitude ∧ longitude ≤ 150 then 11/10
  else if -90 ≤ latitude ∧ latitude ≤ -60 ∧ -180 ≤ longitude ∧ longitude ≤ 180 then 2
  else if 60 ≤ latitude ∧ latitude ≤ 90 ∧ -180 ≤ longitude ∧ longitude ≤ 180 then 9/5
  else 1

/-- Scenario multiplier dict lookup in calculate_grid_risk_score
({"normal":1.0,"moderate":1.5,"severe":2.0}.get(scenario, 1.0)). -/
def grid_scenario_factor (scenario : String) : ℚ :=
  if scenario = "normal" then 1
  else if scenario = "moderate" then 3/2
  else if scenario = "severe" then 2
  else 1

/-- risk_service.RiskAssessmentService.calculate_grid_risk_score.  `r` is the
value drawn by the single random.random() call (local variation 0.8+0.4*r). -/
def calculate_grid_risk_score (kp_index latitude longitude : ℚ)
    (scenario : String) (r : ℚ) : ℚ :=
  let base_score := kp_index / 9 * 70
  let geomag_factor := _calculate_geomagnetic_factor latitude
  let region_factor := _get_region_factor latitude longitude
  let scenario_factor := grid_scenario_factor scenario
  let total_score := base_score * geomag_factor * region_factor * scenario_factor
  let local_variation := 4/5 + r * (2/5)
  min 100 (total_score * local_variation)

/-- base_gps_errors table of the RiskAssessmentService constructor. -/
def base_gps_errors : RiskLevel → ℚ × ℚ
  | RiskLevel.low => (5, 15)
  | RiskLevel.medium => (30, 100)
  | RiskLevel.high => (100, 500)

/-- Scenario multiplier dict lookup in estimate_gps_error
({"normal":1.0,"moderate":1.5,"severe":2.5}.get(scenario, 1.0)). -/
def gps_scenario_multiplier (scenario : String) : ℚ :=
  if scenario = "normal" then 1
  else if scenario = "moderate" then 3/2
  else if scenario = "severe" then 5/2
  else 1

/-- Latitude adjustment of estimate_gps_error (None means latitude omitted). -/
def gps_latitude_factor : Option ℚ → ℚ
  | none => 1
  | some lat => if |lat| > 60 then 9/5 else if |lat| > 45 then 13/10 else 1

/-- risk_service.RiskAssessmentService.estimate_gps_error.  The source scales
min_error and max_error in place by the scenario multiplier, then by the
latitude factor, then by the random factor 0.8+0.4*random(); the composition
of those in-place multiplications is written as one product here.  `r` is the
random.random() draw. -/
def estimate_gps_error (risk_level : RiskLevel) (latitude : Option ℚ)
    (scenario : String) (r : ℚ) : ℚ × ℚ :=
  let base := base_gps_errors risk_level
  let m := gps_scenario_multiplier scenario
  let lf := gps_latitude_factor latitude
  let random_factor := 4/5 + r * (2/5)
  (pyRound 1 (base.1 * m * lf * random_factor),
   pyRound 1 (base.2 * m * lf * random_factor))

/-- routing_service.AStarRouter.lat_lon_to_grid (N is self.grid_size;
int() truncates toward zero, then the index is clamped to [0, N-1]). -/
def lat_lon_to_grid (N : ℕ) (lat lon min_lat max_lat min_lon max_lon : ℚ) :
    ℤ × ℤ :=
  let x := pyInt ((lon - min_lon) / (max_lon - min_lon) * ((N : ℚ) - 1))
  let y := pyInt ((lat - min_lat) / (max_lat - min_lat) * ((N : ℚ) - 1))
  (max 0 (min x ((N : ℤ) - 1)), max 0 (min y ((N : ℤ) - 1)))

/-- routing_service.AStarRouter.grid_to_lat_lon. -/
def grid_to_lat_lon (N : ℕ) (x y : ℤ) (min_lat max_lat min_lon max_lon : ℚ) :
    ℚ × ℚ :=
  let lon := min_lon + ((x : ℚ) / ((N : ℚ) - 1)) * (max_lon - min_lon)
  let lat := min_lat + ((y : ℚ) / ((N : ℚ) - 1)) * (max_lat - min_lat)
  (lat, lon)

/-- Route metrics record returned by calculate_path_metrics. -/
structure PathMetrics where
  distance_m : ℚ
  estimated_time_s : ℚ
  total_risk_score : ℚ
  max_risk_zone : RiskLevel
deriving DecidableEq, Repr

/-- routing_service.AStarRouter.calculate_path_metrics.  The 2D risk grid is
passed as a lookup function (the source indexes risk_grid[y][x]); cosf and
sqrtf stand for math.cos and math.sqrt, piQ for math.pi (math.radians(d) is
d*pi/180). -/
def calculate_path_metrics (N : ℕ) (cosf sqrtf : ℚ → ℚ) (piQ : ℚ)
    (path : List (ℤ × ℤ)) (risk_grid : ℤ → ℤ → ℚ)
    (min_lat max_lat min_lon max_lon : ℚ) : PathMetrics :=
  if path.length < 2 then
    { distance_m := 0, estimated_time_s := 0, total_risk_score := 0,
      max_risk_zone := RiskLevel.low }
  else
    let p0 := path.headD (0, 0)
    let pn := path.getLastD (0, 0)
    let s := grid_to_lat_lon N p0.1 p0.2 min_lat max_lat min_lon max_lon
    let e := grid_to_lat_lon N pn.1 pn.2 min_lat max_lat min_lon max_lon
    let lat_distance := |e.1 - s.1| * 111000
    let lon_distance := |e.2 - s.2| * 111000 * cosf ((s.1 + e.1) / 2 * piQ / 180)
    let distance_m := sqrtf (lat_distance ^ 2 + lon_distance ^ 2)
    let estimated_time_s := distance_m / 15
    let risks := path.map fun p => risk_grid p.2 p.1
    let total_risk := risks.sum
    let max_risk := risks.foldl max 0
    let avg_risk := total_risk / (path.length : ℚ)
    let max_risk_zone :=
      if max_risk > 7/10 then RiskLevel.high
      else if max_risk > 2/5 then RiskLevel.medium
      else RiskLevel.low
    { distance_m := pyRound 1 distance_m,
      estimated_time_s := pyRound 1 estimated_time_s,
      total_risk_score := pyRound 2 (avg_risk * 100),
      max_risk_zone := max_risk_zone }

/-- numpy.arange(start, stop, step) for a positive step: the values
start + i*step for 0 ≤ i < ceil((stop - start) / step). -/
def arange (start stop step : ℚ) : List ℚ :=
  (List.range (⌈(stop - start) / step⌉.toNat)).map
    fun i : ℕ => start + (i : ℚ) * step

/-- HeatmapRequest from app/models.py (bbox is [min_lon, min_lat, max_lon,
max_lat], unpacked in generate_heatmap in that order). -/
structure HeatmapRequest where
  min_lon : ℚ
  min_lat : ℚ
  max_lon : ℚ
  max_lat : ℚ
  resolution : ℚ

/-- One GeoJSON feature produced by heatmap_service.generate_heatmap:
the polygon ring plus the properties dict. -/
structure HeatmapFeature where
  polygon : List (ℚ × ℚ)
  risk_level : RiskLevel
  risk_score : ℚ
  color : String
  opacity : ℚ
  center : ℚ × ℚ
  gps_error_min : ℚ
  gps_error_max : ℚ

/-- The FeatureCollection with its metadata dict (grid_size is recorded as
the pair (len(lats)-1, len(lons)-1), computed in ℤ as in the source's
f-string). -/
structure HeatmapResult where
  features : List HeatmapFeature
  bbox : ℚ × ℚ × ℚ × ℚ
  resolution : ℚ
  grid_rows : ℤ
  grid_cols : ℤ
  kp_index : ℚ

/-- np.arange(min_lat, max_lat, resolution) in generate_heatmap. -/
def heatmap_lats (req : HeatmapRequest) : List ℚ :=
  arange req.min_lat req.max_lat req.resolution

/-- np.arange(min_lon, max_lon, resolution) in generate_heatmap. -/
def heatmap_lons (req : HeatmapRequest) : List ℚ :=
  arange req.min_lon req.max_lon req.resolution

/-- Number of cell rows, range(len(lats) - 1) (ℕ subtraction matches
Python's empty range for len(lats) ≤ 1). -/
def heatmap_nrows (req : HeatmapRequest) : ℕ :=
  (heatmap_lats req).length - 1

/-- Number of cell columns, range(len(lons) - 1). -/
def heatmap_ncols (req : HeatmapRequest) : ℕ :=
  (heatmap_lons req).length - 1

/-- One cell of the heatmap loop body: bounds from the lats/lons arrays,
center risk score, 40/70 colour buckets on the raw score, properties with
the score rounded to 1 decimal; r0 is the random draw consumed by
calculate_grid_risk_score, r1 and r2 the draws of the two separate
estimate_gps_error calls. -/
def heatmap_cell (lats lons : List ℚ) (kp_index : ℚ) (i j : ℕ)
    (r0 r1 r2 : ℚ) : HeatmapFeature :=
  let cell_min_lat := lats.getD i 0
  let cell_max_lat := lats.getD (i + 1) 0
  let cell_min_lon := lons.getD j 0
  let cell_max_lon := lons.getD (j + 1) 0
  let center_lat := (cell_min_lat + cell_max_lat) / 2
  let center_lon := (cell_min_lon + cell_max_lon) / 2
  let risk_score := calculate_grid_risk_score kp_index center_lat center_lon
    "normal" r0
  let lc : RiskLevel × String :=
    if risk_score < 40 then (RiskLevel.low, "#4CAF50")
    else if risk_score < 70 then (RiskLevel.medium, "#FFC107")
    else (RiskLevel.high, "#F44336")
  { polygon := [(cell_min_lon, cell_min_lat), (cell_min_lon, cell_max_lat),
      (cell_max_lon, cell_max_lat), (cell_max_lon, cell_min_lat),
      (cell_min_lon, cell_min_lat)],
    risk_level := lc.1,
    risk_score := pyRound 1 risk_score,
    color := lc.2,
    opacity := min (7/10) (risk_score / 150),
    center := (center_lon, center_lat),
    gps_error_min := (estimate_gps_error lc.1 (some center_lat) "normal" r1).1,
    gps_error_max := (estimate_gps_error lc.1 (some center_lat) "normal" r2).2 }

/-- The cell built at loop indices (i, j); the stream indices reflect that
each iteration consumes three random draws in order (risk score, first
estimate_gps_error call, second estimate_gps_error call). -/
def heatmap_feature_at (req : HeatmapRequest) (kp_index : ℚ) (stream : ℕ → ℚ)
    (i j : ℕ) : HeatmapFeature :=
  heatmap_cell (heatmap_lats req) (heatmap_lons req) kp_index i j
    (stream (3 * (i * heatmap_ncols req + j)))
    (stream (3 * (i * heatmap_ncols req + j) + 1))
    (stream (3 * (i * heatmap_ncols req + j) + 2))

/-- The raw (pre-rounding) center risk score of cell (i, j), as computed
inside generate_heatmap before it is rounded for the properties dict. -/
def heatmap_raw (req : HeatmapRequest) (kp_index : ℚ) (stream : ℕ → ℚ)
    (i j : ℕ) : ℚ :=
  calculate_grid_risk_score kp_index
    (((heatmap_lats req).getD i 0 + (heatmap_lats req).getD (i + 1) 0) / 2)
    (((heatmap_lons req).getD j 0 + (heatmap_lons req).getD (j + 1) 0) / 2)
    "normal" (stream (3 * (i * heatmap_ncols req + j)))

/-- heatmap_service.HeatmapGenerator.generate_heatmap. -/
def generate_heatmap (req : HeatmapRequest) (kp_index : ℚ)
    (stream : ℕ → ℚ) : HeatmapResult :=
  { features := (List.range (heatmap_nrows req)).flatMap fun i =>
      (List.range (heatmap_ncols req)).map fun j =>
        heatmap_feature_at req kp_index stream i j,
    bbox := (req.min_lon, req.min_lat, req.max_lon, req.max_lat),
    resolution := req.resolution,
    grid_rows := ((heatmap_lats req).length : ℤ) - 1,
    grid_cols := ((heatmap_lons req).length : ℤ) - 1,
    kp_index := kp_index }

/-- The spec's concrete heatmap request: bbox [-122.45, 37.70, -122.40,
37.75] with resolution 0.02. -/
def sf_request : HeatmapRequest :=
  { min_lon := -2449/20, min_lat := 377/10, max_lon := -612/5,
    max_lat := 755/20, resolution := 1/50 }

/-- The degenerate one-cell request used by the C7 counterexample: bbox
[-0.01,-0.01,0.01,0.01] at resolution 0.01, giving a single cell centered
at (-0.005,-0.005), outside every special region and below every latitude
threshold. -/
def cex_request : HeatmapRequest :=
  { min_lon := -1/100, min_lat := -1/100, max_lon := 1/100,
    max_lat := 1/100, resolution := 1/100 }

/-- mx is the maximum of the list l. -/
def IsMaxOf (mx : ℚ) (l : List ℚ) : Prop :=
  mx ∈ l ∧ ∀ v ∈ l, v ≤ mx

/-- RouteRequest from app/models.py; endp models the field named end. -/
structure RouteRequest where
  start : ℚ × ℚ
  endp : ℚ × ℚ

/-- One route variant dict of find_routes: the lat/lon path plus the four
metric entries. -/
structure RouteInfo where
  path : List (ℚ × ℚ)
  distance_m : ℚ
  estimated_time_s : ℚ
  total_risk_score : ℚ
  max_risk_zone : RiskLevel
deriving DecidableEq, Repr

/-- The routes dict returned by find_routes; a key is absent (none) when the
corresponding A* search found no path. -/
structure Routes where
  normal : Option RouteInfo
  safe : Option RouteInfo
deriving DecidableEq, Repr

/-- The type of routing_service.AStarRouter.a_star_search, taken as a
parameter of the find_routes embedding: start cell, goal cell, risk grid,
lambda, returning the cell path or None. -/
abbrev AStarFun :=
  (ℤ × ℤ) → (ℤ × ℤ) → List (List ℚ) → ℚ → Option (List (ℤ × ℤ))

/-- routing_service.AStarRouter.create_risk_grid; each cell consumes one
random draw, row by row (index y*N + x in the stream). -/
def create_risk_grid (N : ℕ) (kp : ℚ)
    (min_lat max_lat min_lon max_lon : ℚ) (stream : ℕ → ℚ) : List (List ℚ) :=
  (List.range N).map fun y : ℕ =>
    (List.range N).map fun x : ℕ =>
      let ll := grid_to_lat_lon N ((x : ℤ)) ((y : ℤ)) min_lat max_lat min_lon
        max_lon
      calculate_grid_risk_score kp ll.1 ll.2 "normal" (stream (y * N + x)) / 100

/-- Python indexing risk_grid[y][x] for in-bounds indices. -/
def gridAt (g : List (List ℚ)) (y x : ℤ) : ℚ :=
  (g.getD y.toNat []).getD x.toNat 0

/-- routing_service.AStarRouter.smooth_path. -/
def smooth_path (path : List (ℤ × ℤ)) : List (ℤ × ℤ) :=
  if path.length < 3 then path
  else [path.headD (0, 0), path.getLastD (0, 0)]

/-- The padded (and minimum-size-adjusted) bounding box that find_routes
builds around the request endpoints, as (min_lat, max_lat, min_lon,
max_lon). -/
def fr_bbox (req : RouteRequest) : ℚ × ℚ × ℚ × ℚ :=
  let padding : ℚ := 1/100
  let min_lat := min req.start.1 req.endp.1 - padding
  let max_lat := max req.start.1 req.endp.1 + padding
  let min_lon := min req.start.2 req.endp.2 - padding
  let max_lon := max req.start.2 req.endp.2 + padding
  let lat_pair :=
    if max_lat - min_lat < 1/200 then
      ((req.start.1 + req.endp.1) / 2 - 1/200,
       (req.start.1 + req.endp.1) / 2 + 1/200)
    else (min_lat, max_lat)
  let lon_pair :=
    if max_lon - min_lon < 1/200 then
      ((req.start.2 + req.endp.2) / 2 - 1/200,
       (req.start.2 + req.endp.2) / 2 + 1/200)
    else (min_lon, max_lon)
  (lat_pair.1, lat_pair.2, lon_pair.1, lon_pair.2)

/-- The risk grid find_routes builds for a request. -/
def fr_risk_grid (N : ℕ) (req : RouteRequest) (kp : ℚ)
    (stream : ℕ → ℚ) : List (List ℚ) :=
  let bb := fr_bbox req
  create_risk_grid N kp bb.1 bb.2.1 bb.2.2.1 bb.2.2.2 stream

/-- The start cell find_routes passes to the A* search. -/
def fr_start_grid (N : ℕ) (req : RouteRequest) : ℤ × ℤ :=
  let bb := fr_bbox req
  lat_lon_to_grid N req.start.1 req.start.2 bb.1 bb.2.1 bb.2.2.1 bb.2.2.2

/-- The goal cell find_routes passes to the A* search. -/
def fr_end_grid (N : ℕ) (req : RouteRequest) : ℤ × ℤ :=
  let bb := fr_bbox req
  lat_lon_to_grid N req.endp.1 req.endp.2 bb.1 bb.2.1 bb.2.2.1 bb.2.2.2

/-- Building one route variant from a found A* path: smooth, compute
metrics, convert the grid path back to lat/lon. -/
def route_from_path (N : ℕ) (cosf sqrtf : ℚ → ℚ) (piQ : ℚ)
    (p : List (ℤ × ℤ)) (grid : List (List ℚ)) (bb : ℚ × ℚ × ℚ × ℚ) :
    RouteInfo :=
  let sp := smooth_path p
  let m := calculate_path_metrics N cosf sqrtf piQ sp
    (fun y x => gridAt grid y x) bb.1 bb.2.1 bb.2.2.1 bb.2.2.2
  { path := sp.map fun c => grid_to_lat_lon N c.1 c.2 bb.1 bb.2.1 bb.2.2.1 bb.2.2.2,
    distance_m := m.distance_m,
    estimated_time_s := m.estimated_time_s,
    total_risk_score := m.total_risk_score,
    max_risk_zone := m.max_risk_zone }

/-- The body of routing_service.AStarRouter.find_routes inside its
try-block.  When both A* searches return None, the source enters the
straight-line branch, computes the straight-line metrics, and then builds
the route dict from the name normal_coords — which is unbound on that path,
so the branch raises NameError (modelled as Except.error); the metrics
computed before the raise are dead values. -/
def find_routes_inner (N : ℕ) (astar : AStarFun) (cosf sqrtf : ℚ → ℚ)
    (piQ : ℚ) (req : RouteRequest) (kp : ℚ) (stream : ℕ → ℚ) :
    Except String Routes :=
  let bb := fr_bbox req
  let risk_grid := fr_risk_grid N req kp stream
  let start_grid := fr_start_grid N req
  let end_grid := fr_end_grid N req
  let normal_route := (astar start_grid end_grid risk_grid (1/10)).map
    fun p => route_from_path N cosf sqrtf piQ p risk_grid bb
  let safe_route := (astar start_grid end_grid risk_grid 1).map
    fun p => route_from_path N cosf sqrtf piQ p risk_grid bb
  match normal_route, safe_route with
  | none, none =>
      let lat_distance := |req.endp.1 - req.start.1| * 111000
      let lon_distance := |req.endp.2 - req.start.2| * 111000 *
        cosf ((req.start.1 + req.endp.1) / 2 * piQ / 180)
      let distance_m := sqrtf (lat_distance ^ 2 + lon_distance ^ 2)
      let risk_score := calculate_grid_risk_score kp
        ((req.start.1 + req.endp.1) / 2) ((req.start.2 + req.endp.2) / 2)
        "normal" (stream (N * N)) / 100
      Except.error "NameError: name normal_coords is not defined"
  | n, s => Except.ok { normal := n, safe := s }

/-- The constant fallback route returned by find_routes' except handler. -/
def route_fallback (req : RouteRequest) : RouteInfo :=
  { path := [req.start, req.endp], distance_m := 1000,
    estimated_time_s := 67, total_risk_score := 30,
    max_risk_zone := RiskLevel.low }

/-- routing_service.AStarRouter.find_routes: the try-block result, with any
raised error caught and replaced by the constant two-point fallback
routes. -/
def find_routes (N : ℕ) (astar : AStarFun) (cosf sqrtf : ℚ → ℚ) (piQ : ℚ)
    (req : RouteRequest) (kp : ℚ) (stream : ℕ → ℚ) : Routes :=
  match find_routes_inner N astar cosf sqrtf piQ req kp stream with
  | Except.ok r => r
  | Except.error _ =>
      { normal := some (route_fallback req), safe := some (route_fallback req) }

/-- GPSFailureSimulation from app/models.py (it has no seed field). -/
structure GPSFailureSimulation where
  risk_level : RiskLevel
  severity : String
  start_position : ℚ × ℚ
  duration_seconds : ℤ

/-- The mutable params dict built by StormSimulator._calculate_drift_parameters. -/
structure DriftParams where
  magnitude : ℚ
  direction_change : ℚ
  randomness : ℚ
  systematic_bias : ℚ
deriving DecidableEq, Repr

/-- simulation.StormSimulator._calculate_drift_parameters.  The two
random.uniform(a, b) calls are a + (b-a)*random(); they consume stream
draws 0 and 1.  piQ stands for math.pi (upper bound of the first
uniform). -/
def calculate_drift_parameters (piQ : ℚ) (risk_level : RiskLevel)
    (severity : String) (stream : ℕ → ℚ) : DriftParams :=
  let base_drift : ℚ :=
    if severity = "low" then 1/50000
    else if severity = "medium" then 1/10000
    else if severity = "high" then 3/10000
    else 1/10000
  let risk_multiplier : ℚ :=
    match risk_level with
    | RiskLevel.low => 1/2
    | RiskLevel.medium => 1
    | RiskLevel.high => 2
  { magnitude := base_drift * risk_multiplier,
    direction_change := 0 + (piQ - 0) * stream 0,
    randomness := 3/10,
    systematic_bias := -1/10 + (1/10 - -1/10) * stream 1 }

/-- simulation.StormSimulator._apply_drift_step; it mutates
params["direction_change"], so the updated params are returned alongside
the new position.  u is the random.random() draw of this step; sinf/cosf
stand for math.sin/math.cos. -/
def apply_drift_step (sinf cosf : ℚ → ℚ) (lat lon : ℚ) (params : DriftParams)
    (step : ℕ) (u : ℚ) : (ℚ × ℚ) × DriftParams :=
  let d1 := params.direction_change + (u - 1/2) * params.randomness
  let d2 := d1 + params.systematic_bias
  let periodic_variation := 1/10 * sinf ((step : ℚ) / 10)
  let d3 := d2 + periodic_variation
  let drift_lat := params.magnitude * sinf d3
  let drift_lon := params.magnitude * cosf d3
  ((lat + drift_lat, lon + drift_lon), { params with direction_change := d3 })

/-- The drift-path loop of simulate_gps_failure (steps random draws start at
stream index 2, after the two draws of _calculate_drift_parameters);
returns the accumulated path and the final position. -/
def drift_path_loop (sinf cosf : ℚ → ℚ) (stream : ℕ → ℚ) (steps : ℕ)
    (start : ℚ × ℚ) (params : DriftParams) : List (ℚ × ℚ) × (ℚ × ℚ) :=
  let final := (List.range steps).foldl
    (fun (acc : List (ℚ × ℚ) × (ℚ × ℚ) × DriftParams) step =>
      let r := apply_drift_step sinf cosf acc.2.1.1 acc.2.1.2 acc.2.2 step
        (stream (2 + step))
      (acc.1 ++ [r.1], r.1, r.2))
    ([start], start, params)
  (final.1, final.2.1)

/-- The attribute access math.PI in _calculate_total_drift: the Python math
module defines math.pi, not math.PI, so this access raises
AttributeError. -/
def mathPI : Except String ℚ :=
  Except.error "AttributeError: module math has no attribute PI"

/-- Python division, raising ZeroDivisionError on a zero divisor. -/
def pyDiv (a b : ℚ) : Except String ℚ :=
  if b = 0 then Except.error "ZeroDivisionError: division by zero"
  else Except.ok (a / b)

/-- simulation.StormSimulator._calculate_total_drift.  Every loop iteration
evaluates math.PI while computing lon_diff, so the whole call raises
whenever the path has at least 2 points. -/
def calculate_total_drift (cosf sqrtf : ℚ → ℚ)
    (drift_path : List (ℚ × ℚ)) : Except String ℚ :=
  if drift_path.length < 2 then Except.ok 0
  else
    (drift_path.zip drift_path.tail).foldlM
      (fun total_distance pq => do
        let lat_diff := (pq.2.1 - pq.1.1) * 111000
        let piv ← mathPI
        let lon_diff := (pq.2.2 - pq.1.2) * 111000 * cosf (pq.1.1 * piv / 180)
        pure (total_distance + sqrtf (lat_diff ^ 2 + lon_diff ^ 2)))
      0

/-- The result dict of simulate_gps_failure. -/
structure DriftResult where
  drift_path : List (ℚ × ℚ)
  total_drift_m : ℚ
  drift_rate_mps : ℚ
  severity : String
  risk_level : RiskLevel
  duration_s : ℤ
  start_position : ℚ × ℚ
  end_position : ℚ × ℚ

/-- simulation.StormSimulator.simulate_gps_failure.  The step count is
duration_seconds // 5 (Python floor division); the statistics are computed
by _calculate_total_drift and the division total/duration. -/
def simulate_gps_failure (piQ : ℚ) (sinf cosf sqrtf : ℚ → ℚ)
    (sim : GPSFailureSimulation) (stream : ℕ → ℚ) :
    Except String DriftResult := do
  let drift_params := calculate_drift_parameters piQ sim.risk_level
    sim.severity stream
  let steps := (sim.duration_seconds.fdiv 5).toNat
  let pe := drift_path_loop sinf cosf stream steps sim.start_position
    drift_params
  let total_drift_distance ← calculate_total_drift cosf sqrtf pe.1
  let rate ← pyDiv total_drift_distance (sim.duration_seconds : ℚ)
  pure { drift_path := pe.1,
         total_drift_m := pyRound 1 total_drift_distance,
         drift_rate_mps := pyRound 2 rate,
         severity := sim.severity,
         risk_level := sim.risk_level,
         duration_s := sim.duration_seconds,
         start_position := sim.start_position,
         end_position := pe.2 }

/- ----------------------------------------------------------------- -/
/- Helper lemmas                                                      -/
/- ----------------------------------------------------------------- -/

theorem roundHalfEven_abs_le (q : ℚ) : |(roundHalfEven q : ℚ) - q| ≤ 1/2 := by
  have hle : 0 ≤ Int.fract q := Int.fract_nonneg q
  have hlt : Int.fract q < 1 := Int.fract_lt_one q
  have hfr : (⌊q⌋ : ℚ) = q - Int.fract q := by
    rw [Int.fract]; ring
  unfold roundHalfEven
  split_ifs with h1 h2 h3 <;> rw [abs_le] <;> constructor <;> push_cast <;>
    rw [hfr] <;> linarith

theorem pyRound_abs_le (nd : ℕ) (x : ℚ) :
    |pyRound nd x - x| ≤ 1 / (2 * 10 ^ nd) := by
  have h := roundHalfEven_abs_le (x * 10 ^ nd)
  have hp : (0:ℚ) < 10 ^ nd := by positivity
  have hrw : pyRound nd x - x =
      ((roundHalfEven (x * 10 ^ nd) : ℚ) - x * 10 ^ nd) / 10 ^ nd := by
    field_simp [pyRound]
    ring
  rw [hrw, abs_div, abs_of_pos hp]
  rw [div_le_div_iff₀ hp (by positivity)]
  nlinarith [abs_nonneg ((roundHalfEven (x * 10 ^ nd) : ℚ) - x * 10 ^ nd)]

theorem pyRound1_bounds (x : ℚ) :
    x - 1/20 ≤ pyRound 1 x ∧ pyRound 1 x ≤ x + 1/20 := by
  have h := pyRound_abs_le 1 x
  rw [abs_le] at h
  constructor <;> nlinarith [h.1, h.2]

theorem pyRound2_bounds (x : ℚ) :
    x - 1/200 ≤ pyRound 2 x ∧ pyRound 2 x ≤ x + 1/200 := by
  have h := pyRound_abs_le 2 x
  rw [abs_le] at h
  constructor <;> nlinarith [h.1, h.2]

theorem pyRound2_abs (z : ℚ) : |pyRound 2 z - z| ≤ 1/200 := by
  have h := pyRound_abs_le 2 z
  have e : (1:ℚ) / (2 * 10 ^ 2) = 1/200 := by norm_num
  rw [e] at h
  exact h

theorem one_le_geomag (latitude : ℚ) :
    1 ≤ _calculate_geomagnetic_factor latitude := by
  unfold _calculate_geomagnetic_factor
  split_ifs <;> norm_num

theorem one_le_region (latitude longitude : ℚ) :
    1 ≤ _get_region_factor latitude longitude := by
  unfold _get_region_factor
  split_ifs <;> norm_num

theorem one_le_grid_scenario (scenario : String) :
    1 ≤ grid_scenario_factor scenario := by
  unfold grid_scenario_factor
  split_ifs <;> norm_num

theorem one_le_gps_scenario (scenario : String) :
    1 ≤ gps_scenario_multiplier scenario := by
  unfold gps_scenario_multiplier
  split_ifs <;> norm_num

theorem one_le_gps_latitude (latitude : Option ℚ) :
    1 ≤ gps_latitude_factor latitude := by
  cases latitude with
  | none => norm_num [gps_latitude_factor]
  | some lat =>
      simp only [gps_latitude_factor]
      split_ifs <;> norm_num

/- ----------------------------------------------------------------- -/
/- C1 and C5: grid risk score                                         -/
/- ----------------------------------------------------------------- -/

/-- C1: for fixed latitude, longitude, scenario and a fixed value of the
bounded local perturbation draw, calculate_grid_risk_score is monotone
non-decreasing in the Kp index over [0, 9]. -/
theorem grid_risk_score_monotone_kp (kp1 kp2 lat lon : ℚ) (scenario : String)
    (r : ℚ) (hkp1 : 0 ≤ kp1) (h12 : kp1 ≤ kp2) (hkp2 : kp2 ≤ 9)
    (hr0 : 0 ≤ r) (hr1 : r ≤ 1) :
    calculate_grid_risk_score kp1 lat lon scenario r ≤
      calculate_grid_risk_score kp2 lat lon scenario r := by
  unfold calculate_grid_risk_score
  have hg : (0:ℚ) ≤ _calculate_geomagnetic_factor lat :=
    le_trans zero_le_one (one_le_geomag lat)
  have hre : (0:ℚ) ≤ _get_region_factor lat lon :=
    le_trans zero_le_one (one_le_region lat lon)
  have hs : (0:ℚ) ≤ grid_scenario_factor scenario :=
    le_trans zero_le_one (one_le_grid_scenario scenario)
  have hlv : (0:ℚ) ≤ 4/5 + r * (2/5) := by linarith
  refine min_le_min le_rfl ?_
  have e1 : ∀ kp : ℚ,
      kp / 9 * 70 * _calculate_geomagnetic_factor lat *
        _get_region_factor lat lon * grid_scenario_factor scenario *
        (4/5 + r * (2/5)) =
      kp * (70/9 * (_calculate_geomagnetic_factor lat *
        (_get_region_factor lat lon * (grid_scenario_factor scenario *
          (4/5 + r * (2/5)))))) := by
    intro kp; ring
  rw [e1 kp1, e1 kp2]
  refine mul_le_mul_of_nonneg_right h12 ?_
  positivity

/-- C5: for kp in [0,9] and any location in range, any scenario string and a
perturbation draw in [0,1], calculate_grid_risk_score is in [0, 100]. -/
theorem grid_risk_score_bounds (kp lat lon : ℚ) (scenario : String) (r : ℚ)
    (hkp0 : 0 ≤ kp) (hkp9 : kp ≤ 9)
    (hlat1 : -90 ≤ lat) (hlat2 : lat ≤ 90)
    (hlon1 : -180 ≤ lon) (hlon2 : lon ≤ 180)
    (hr0 : 0 ≤ r) (hr1 : r ≤ 1) :
    0 ≤ calculate_grid_risk_score kp lat lon scenario r ∧
      calculate_grid_risk_score kp lat lon scenario r ≤ 100 := by
  unfold calculate_grid_risk_score
  have hg : (0:ℚ) ≤ _calculate_geomagnetic_factor lat :=
    le_trans zero_le_one (one_le_geomag lat)
  have hre : (0:ℚ) ≤ _get_region_factor lat lon :=
    le_trans zero_le_one (one_le_region lat lon)
  have hs : (0:ℚ) ≤ grid_scenario_factor scenario :=
    le_trans zero_le_one (one_le_grid_scenario scenario)
  have hlv : (0:ℚ) ≤ 4/5 + r * (2/5) := by linarith
  constructor
  · refine le_min (by norm_num) ?_
    positivity
  · exact min_le_left _ _

/- ----------------------------------------------------------------- -/
/- C4: estimate_gps_error                                             -/
/- ----------------------------------------------------------------- -/

theorem pyRound1_le_of_gap (a b : ℚ) (h : a + 1/10 ≤ b) :
    pyRound 1 a ≤ pyRound 1 b := by
  have ha := pyRound1_bounds a
  have hb := pyRound1_bounds b
  linarith [ha.2, hb.1]

theorem pyRound1_lt_of_gap (a b : ℚ) (h : a + 1/10 < b) :
    pyRound 1 a < pyRound 1 b := by
  have ha := pyRound1_bounds a
  have hb := pyRound1_bounds b
  linarith [ha.2, hb.1]

theorem gps_pair_core (b1 b2 m lf rf : ℚ) (hb1 : 5 ≤ b1) (hgap : b1 + 10 ≤ b2)
    (hm : 1 ≤ m) (hlf : 1 ≤ lf) (hrf : 4/5 ≤ rf) :
    0 ≤ pyRound 1 (b1 * m * lf * rf) ∧
      pyRound 1 (b1 * m * lf * rf) ≤ pyRound 1 (b2 * m * lf * rf) := by
  have hlfrf : 4/5 ≤ lf * rf := by nlinarith
  have hmlr : 4/5 ≤ m * (lf * rf) := by nlinarith
  have hlow : 4 ≤ b1 * (m * (lf * rf)) := by nlinarith
  have hgap2 : 8 ≤ (b2 - b1) * (m * (lf * rf)) := by nlinarith
  have e1 : b1 * m * lf * rf = b1 * (m * (lf * rf)) := by ring
  have e2 : b2 * m * lf * rf = b2 * (m * (lf * rf)) := by ring
  constructor
  · have h := pyRound1_bounds (b1 * m * lf * rf)
    rw [e1] at h ⊢
    linarith [h.1]
  · apply pyRound1_le_of_gap
    rw [e1, e2]
    nlinarith

theorem gps_strict_core (b m1 m2 lf rf : ℚ) (hb : 5 ≤ b) (hm1 : 1 ≤ m1)
    (hmm : m1 + 1/2 ≤ m2) (hlf : 1 ≤ lf) (hrf : 4/5 ≤ rf) :
    pyRound 1 (b * m1 * lf * rf) < pyRound 1 (b * m2 * lf * rf) := by
  have hlfrf : 4/5 ≤ lf * rf := by nlinarith
  have hd : 1/2 ≤ m2 - m1 := by linarith
  have hstep : (2:ℚ)/5 ≤ (m2 - m1) * (lf * rf) := by nlinarith
  have hgap : 2 ≤ b * ((m2 - m1) * (lf * rf)) := by nlinarith
  apply pyRound1_lt_of_gap
  nlinarith

/-- C4: estimate_gps_error returns 0 ≤ min ≤ max for every risk level,
optional latitude, scenario string and jitter draw in [0,1], and for a fixed
level, latitude and jitter draw both components strictly increase from
scenario "normal" to "moderate" to "severe". -/
theorem estimate_gps_error_spec (risk_level : RiskLevel) (latitude : Option ℚ)
    (scenario : String) (r : ℚ) (hr0 : 0 ≤ r) (hr1 : r ≤ 1) :
    (0 ≤ (estimate_gps_error risk_level latitude scenario r).1 ∧
      (estimate_gps_error risk_level latitude scenario r).1 ≤
        (estimate_gps_error risk_level latitude scenario r).2) ∧
    ((estimate_gps_error risk_level latitude "normal" r).1 <
        (estimate_gps_error risk_level latitude "moderate" r).1 ∧
      (estimate_gps_error risk_level latitude "normal" r).2 <
        (estimate_gps_error risk_level latitude "moderate" r).2 ∧
      (estimate_gps_error risk_level latitude "moderate" r).1 <
        (estimate_gps_error risk_level latitude "severe" r).1 ∧
      (estimate_gps_error risk_level latitude "moderate" r).2 <
        (estimate_gps_error risk_level latitude "severe" r).2) := by
  have hm := one_le_gps_scenario scenario
  have hlf := one_le_gps_latitude latitude
  have hrf : 4/5 ≤ 4/5 + r * (2/5) := by linarith
  have hnorm : gps_scenario_multiplier "normal" = 1 := by rfl
  have hmod : gps_scenario_multiplier "moderate" = 3/2 := by rfl
  have hsev : gps_scenario_multiplier "severe" = 5/2 := by rfl
  rcases risk_level with _ | _ | _ <;>
    simp only [estimate_gps_error, base_gps_errors, hnorm, hmod, hsev] <;>
  refine ⟨gps_pair_core _ _ _ _ _ (by norm_num) (by norm_num) hm hlf hrf,
    gps_strict_core _ _ _ _ _ (by norm_num) (by norm_num) (by norm_num) hlf hrf,
    gps_strict_core _ _ _ _ _ (by norm_num) (by norm_num) (by norm_num) hlf hrf,
    gps_strict_core _ _ _ _ _ (by norm_num) (by norm_num) (by norm_num) hlf hrf,
    gps_strict_core _ _ _ _ _ (by norm_num) (by norm_num) (by norm_num) hlf hrf⟩

/-- Witness for estimate_gps_error_spec at level low, latitude omitted,
scenario "normal", jitter draw 0. -/
theorem estimate_gps_error_spec_witness :
    (0 ≤ (estimate_gps_error RiskLevel.low none "normal" 0).1 ∧
      (estimate_gps_error RiskLevel.low none "normal" 0).1 ≤
        (estimate_gps_error RiskLevel.low none "normal" 0).2) ∧
    ((estimate_gps_error RiskLevel.low none "normal" 0).1 <
        (estimate_gps_error RiskLevel.low none "moderate" 0).1 ∧
      (estimate_gps_error RiskLevel.low none "normal" 0).2 <
        (estimate_gps_error RiskLevel.low none "moderate" 0).2 ∧
      (estimate_gps_error RiskLevel.low none "moderate" 0).1 <
        (estimate_gps_error RiskLevel.low none "severe" 0).1 ∧
      (estimate_gps_error RiskLevel.low none "moderate" 0).2 <
        (estimate_gps_error RiskLevel.low none "severe" 0).2) :=
  estimate_gps_error_spec RiskLevel.low none "normal" 0 (by norm_num)
    (by norm_num)

/-- Witness for grid_risk_score_monotone_kp at kp1 = 2, kp2 = 7,
lat = 10, lon = 10, scenario "normal", r = 1/2. -/
theorem grid_risk_score_monotone_kp_witness :
    calculate_grid_risk_score 2 10 10 "normal" (1/2) ≤
      calculate_grid_risk_score 7 10 10 "normal" (1/2) :=
  grid_risk_score_monotone_kp 2 7 10 10 "normal" (1/2)
    (by norm_num) (by norm_num) (by norm_num) (by norm_num) (by norm_num)

/-- Witness for grid_risk_score_bounds at kp = 7, lat = 80, lon = 0,
scenario "severe", r = 1. -/
theorem grid_risk_score_bounds_witness :
    0 ≤ calculate_grid_risk_score 7 80 0 "severe" 1 ∧
      calculate_grid_risk_score 7 80 0 "severe" 1 ≤ 100 :=
  grid_risk_score_bounds 7 80 0 "severe" 1 (by norm_num) (by norm_num)
    (by norm_num) (by norm_num) (by norm_num) (by norm_num) (by norm_num)
    (by norm_num)

/- ----------------------------------------------------------------- -/
/- C10: grid coordinate mapping                                       -/
/- ----------------------------------------------------------------- -/

/-- C10: for a grid of size N ≥ 2 over a non-degenerate bounding box, mapping
a cell (x,y) with 0 ≤ x,y ≤ N-1 to geographic coordinates and back returns
exactly (x,y) (in particular within one grid cell), and for arbitrary
latitude/longitude inputs lat_lon_to_grid returns indices clamped to
[0, N-1]. -/
theorem grid_coordinate_roundtrip (N : ℕ) (min_lat max_lat min_lon max_lon : ℚ)
    (hN : 2 ≤ N) (hlat : min_lat < max_lat) (hlon : min_lon < max_lon) :
    (∀ x y : ℕ, x ≤ N - 1 → y ≤ N - 1 →
      lat_lon_to_grid N
        (grid_to_lat_lon N x y min_lat max_lat min_lon max_lon).1
        (grid_to_lat_lon N x y min_lat max_lat min_lon max_lon).2
        min_lat max_lat min_lon max_lon = ((x : ℤ), (y : ℤ))) ∧
    (∀ lat lon : ℚ,
      0 ≤ (lat_lon_to_grid N lat lon min_lat max_lat min_lon max_lon).1 ∧
      (lat_lon_to_grid N lat lon min_lat max_lat min_lon max_lon).1 ≤ (N : ℤ) - 1 ∧
      0 ≤ (lat_lon_to_grid N lat lon min_lat max_lat min_lon max_lon).2 ∧
      (lat_lon_to_grid N lat lon min_lat max_lat min_lon max_lon).2 ≤ (N : ℤ) - 1) := by
  have hNq : (2:ℚ) ≤ (N : ℚ) := by exact_mod_cast hN
  have hNne : ((N : ℚ) - 1) ≠ 0 := by linarith
  have hdlat : max_lat - min_lat ≠ 0 := sub_ne_zero.mpr (ne_of_gt hlat)
  have hdlon : max_lon - min_lon ≠ 0 := sub_ne_zero.mpr (ne_of_gt hlon)
  have hNz : (2:ℤ) ≤ (N : ℤ) := by exact_mod_cast hN
  constructor
  · intro x y hx hy
    simp only [grid_to_lat_lon, lat_lon_to_grid]
    have ex : (min_lon + (((x:ℤ):ℚ)) / ((N:ℚ) - 1) * (max_lon - min_lon) - min_lon) /
        (max_lon - min_lon) * ((N:ℚ) - 1) = (((x:ℤ):ℚ)) := by
      field_simp
      ring
    have ey : (min_lat + (((y:ℤ):ℚ)) / ((N:ℚ) - 1) * (max_lat - min_lat) - min_lat) /
        (max_lat - min_lat) * ((N:ℚ) - 1) = (((y:ℤ):ℚ)) := by
      field_simp
      ring
    rw [ex, ey]
    have hx0 : (0:ℚ) ≤ (((x:ℤ):ℚ)) := by push_cast; positivity
    have hy0 : (0:ℚ) ≤ (((y:ℤ):ℚ)) := by push_cast; positivity
    have px : pyInt (((x:ℤ):ℚ)) = (x:ℤ) := by
      unfold pyInt
      rw [if_pos hx0]
      exact Int.floor_intCast _
    have py : pyInt (((y:ℤ):ℚ)) = (y:ℤ) := by
      unfold pyInt
      rw [if_pos hy0]
      exact Int.floor_intCast _
    rw [px, py]
    have hxz : (x:ℤ) ≤ (N:ℤ) - 1 := by omega
    have hyz : (y:ℤ) ≤ (N:ℤ) - 1 := by omega
    rw [min_eq_left hxz, min_eq_left hyz,
      max_eq_right (Int.natCast_nonneg x), max_eq_right (Int.natCast_nonneg y)]
  · intro lat lon
    simp only [lat_lon_to_grid]
    refine ⟨le_max_left _ _, ?_, le_max_left _ _, ?_⟩ <;>
      exact max_le (by omega) (min_le_right _ _)

/-- Witness for grid_coordinate_roundtrip at N = 30, bbox [0,1]×[0,1],
cell (3, 4), probe point (5, -7). -/
theorem grid_coordinate_roundtrip_witness :
    lat_lon_to_grid 30 (grid_to_lat_lon 30 3 4 0 1 0 1).1
      (grid_to_lat_lon 30 3 4 0 1 0 1).2 0 1 0 1 = ((3 : ℤ), (4 : ℤ)) ∧
    (0 ≤ (lat_lon_to_grid 30 5 (-7) 0 1 0 1).1 ∧
      (lat_lon_to_grid 30 5 (-7) 0 1 0 1).1 ≤ (30 : ℤ) - 1 ∧
      0 ≤ (lat_lon_to_grid 30 5 (-7) 0 1 0 1).2 ∧
      (lat_lon_to_grid 30 5 (-7) 0 1 0 1).2 ≤ (30 : ℤ) - 1) := by
  have h := grid_coordinate_roundtrip 30 0 1 0 1 (by norm_num) (by norm_num)
    (by norm_num)
  exact ⟨h.1 3 4 (by norm_num) (by norm_num), h.2 5 (-7)⟩

/- ----------------------------------------------------------------- -/
/- C6: calculate_path_metrics risk bucketing                          -/
/- ----------------------------------------------------------------- -/

theorem le_foldl_max (l : List ℚ) (a : ℚ) : a ≤ l.foldl max a := by
  induction l generalizing a with
  | nil => exact le_refl a
  | cons h t ih =>
      rw [List.foldl_cons]
      exact le_trans (le_max_left a h) (ih (max a h))

theorem foldl_max_le (l : List ℚ) (a x : ℚ) (hx : x ∈ l) :
    x ≤ l.foldl max a := by
  induction l generalizing a with
  | nil => cases hx
  | cons h t ih =>
      rw [List.foldl_cons]
      rcases List.mem_cons.mp hx with rfl | hmem
      · exact le_trans (le_max_right a x) (le_foldl_max t (max a x))
      · exact ih _ hmem

theorem foldl_max_mem (l : List ℚ) (a : ℚ) :
    l.foldl max a = a ∨ l.foldl max a ∈ l := by
  induction l generalizing a with
  | nil => left; rfl
  | cons h t ih =>
      rw [List.foldl_cons]
      rcases ih (max a h) with heq | hmem
      · rcases max_choice a h with hc | hc
        · left; rw [heq, hc]
        · right; rw [heq, hc]; exact List.mem_cons_self h t
      · right; exact List.mem_cons_of_mem h hmem

theorem zone_buckets (mx : ℚ) :
    ((if mx > 7/10 then RiskLevel.high
      else if mx > 2/5 then RiskLevel.medium
      else RiskLevel.low) = RiskLevel.high ↔ 7/10 < mx) ∧
    ((if mx > 7/10 then RiskLevel.high
      else if mx > 2/5 then RiskLevel.medium
      else RiskLevel.low) = RiskLevel.medium ↔ 2/5 < mx ∧ mx ≤ 7/10) ∧
    ((if mx > 7/10 then RiskLevel.high
      else if mx > 2/5 then RiskLevel.medium
      else RiskLevel.low) = RiskLevel.low ↔ mx ≤ 2/5) := by
  split_ifs with hA hB
  · exact ⟨iff_of_true rfl hA,
      iff_of_false (by simp) (fun hc => absurd hc.2 (not_le.mpr hA)),
      iff_of_false (by simp) (not_le.mpr (by linarith))⟩
  · exact ⟨iff_of_false (by simp) hA,
      iff_of_true rfl ⟨hB, not_lt.mp hA⟩,
      iff_of_false (by simp) (not_le.mpr hB)⟩
  · exact ⟨iff_of_false (by simp) hA,
      iff_of_false (by simp) (fun hc => hB hc.1),
      iff_of_true rfl (not_lt.mp hB)⟩

/-- C6 (amended): for a non-degenerate path whose per-vertex normalized risks
are nonnegative, max_risk_zone uses STRICT thresholds — High iff the maximum
risk is > 0.7, Medium iff 0.4 < max ≤ 0.7, Low iff max ≤ 0.4 (the source
tests max_risk > 0.7 and max_risk > 0.4, so a maximum of exactly 0.7 or 0.4
falls in the lower bucket) — and total_risk_score is the mean risk × 100
rounded half-even to 2 decimals (within 1/200 of the exact mean × 100). -/
theorem path_metrics_risk_spec (N : ℕ) (cosf sqrtf : ℚ → ℚ) (piQ : ℚ)
    (path : List (ℤ × ℤ)) (risk_grid : ℤ → ℤ → ℚ)
    (min_lat max_lat min_lon max_lon : ℚ) (risks : List ℚ) (mx : ℚ)
    (m : PathMetrics)
    (hrisks : risks = path.map fun p => risk_grid p.2 p.1)
    (hmx : mx = risks.foldl max 0)
    (hm : m = calculate_path_metrics N cosf sqrtf piQ path risk_grid
      min_lat max_lat min_lon max_lon)
    (hlen : 2 ≤ path.length)
    (hnn : ∀ v ∈ risks, 0 ≤ v) :
    IsMaxOf mx risks ∧
    (m.max_risk_zone = RiskLevel.high ↔ 7/10 < mx) ∧
    (m.max_risk_zone = RiskLevel.medium ↔ 2/5 < mx ∧ mx ≤ 7/10) ∧
    (m.max_risk_zone = RiskLevel.low ↔ mx ≤ 2/5) ∧
    m.total_risk_score = pyRound 2 (risks.sum / (path.length : ℚ) * 100) ∧
    |m.total_risk_score - risks.sum / (path.length : ℚ) * 100| ≤ 1/200 := by
  have hlr : risks.length = path.length := by rw [hrisks]; simp
  have hne : risks ≠ [] := by
    intro hcon
    rw [hcon] at hlr
    simp at hlr
    omega
  have hmax : IsMaxOf mx risks := by
    constructor
    · rcases foldl_max_mem risks 0 with h0 | hmem
      · obtain ⟨hd, tl, hr⟩ := List.exists_cons_of_ne_nil hne
        have hmem0 : hd ∈ risks := by
          rw [hr]; exact List.mem_cons_self hd tl
        have h1 : hd ≤ risks.foldl max 0 := foldl_max_le risks 0 hd hmem0
        have h4 : hd ≤ 0 := by rw [← h0]; exact h1
        have h5 : hd = 0 := le_antisymm h4 (hnn hd hmem0)
        rw [hmx, h0, ← h5]
        exact hmem0
      · rw [hmx]; exact hmem
    · intro v hv
      rw [hmx]
      exact foldl_max_le risks 0 v hv
  refine ⟨hmax, ?_⟩
  subst hm hmx hrisks
  have h2 : ¬ (path.length < 2) := by omega
  simp only [calculate_path_metrics, h2, if_false]
  exact ⟨(zone_buckets _).1, (zone_buckets _).2.1, (zone_buckets _).2.2,
    trivial, pyRound2_abs _⟩

/-- C6 (counterexample to the claim as stated): on the 2-point path
[(0,0),(1,0)] with every per-vertex normalized risk equal to 0.7 (so the
maximum normalized risk is exactly 0.7 ≥ 0.7, for which the claim requires
High), calculate_path_metrics returns max_risk_zone Medium, because the
source compares with strict max_risk > 0.7. -/
theorem path_metrics_threshold_counterexample :
    (calculate_path_metrics 2 (fun _ => 0) (fun _ => 0) 0 [(0, 0), (1, 0)]
        (fun _ _ => 7/10) 0 1 0 1).max_risk_zone = RiskLevel.medium ∧
    RiskLevel.medium ≠ RiskLevel.high ∧
    (([((0:ℤ), (0:ℤ)), (1, 0)].map fun p =>
        ((fun _ _ => (7:ℚ)/10) : ℤ → ℤ → ℚ) p.2 p.1).foldl max 0) = 7/10 := by
  have hm1 : max (max (0:ℚ) (7/10)) (7/10) = 7/10 := by
    norm_num [max_def]
  have hfold : (([((0:ℤ), (0:ℤ)), (1, 0)].map fun p =>
      ((fun _ _ => (7:ℚ)/10) : ℤ → ℤ → ℚ) p.2 p.1).foldl max 0) = 7/10 := by
    simp only [List.map_cons, List.map_nil, List.foldl_cons, List.foldl_nil]
    exact hm1
  refine ⟨?_, by simp, hfold⟩
  simp only [calculate_path_metrics]
  rw [if_neg (by norm_num)]
  simp only [List.map_cons, List.map_nil, List.foldl_cons, List.foldl_nil]
  exact (zone_buckets _).2.1.mpr (by rw [hm1]; norm_num)

/-- Witness for path_metrics_risk_spec on the 2-point path [(0,0),(1,0)]
with constant per-vertex risk 1/2. -/
theorem path_metrics_risk_spec_witness :
    IsMaxOf (1/2) [(1:ℚ)/2, 1/2] ∧
    ((calculate_path_metrics 2 (fun _ => 0) (fun _ => 0) 0 [(0, 0), (1, 0)]
        (fun _ _ => 1/2) 0 1 0 1).max_risk_zone = RiskLevel.high ↔
      7/10 < (1:ℚ)/2) ∧
    ((calculate_path_metrics 2 (fun _ => 0) (fun _ => 0) 0 [(0, 0), (1, 0)]
        (fun _ _ => 1/2) 0 1 0 1).max_risk_zone = RiskLevel.medium ↔
      2/5 < (1:ℚ)/2 ∧ (1:ℚ)/2 ≤ 7/10) ∧
    ((calculate_path_metrics 2 (fun _ => 0) (fun _ => 0) 0 [(0, 0), (1, 0)]
        (fun _ _ => 1/2) 0 1 0 1).max_risk_zone = RiskLevel.low ↔
      (1:ℚ)/2 ≤ 2/5) ∧
    (calculate_path_metrics 2 (fun _ => 0) (fun _ => 0) 0 [(0, 0), (1, 0)]
        (fun _ _ => 1/2) 0 1 0 1).total_risk_score =
      pyRound 2 ([(1:ℚ)/2, 1/2].sum / (([((0:ℤ), (0:ℤ)), (1, 0)] : List (ℤ × ℤ)).length : ℚ) * 100) ∧
    |(calculate_path_metrics 2 (fun _ => 0) (fun _ => 0) 0 [(0, 0), (1, 0)]
        (fun _ _ => 1/2) 0 1 0 1).total_risk_score -
      [(1:ℚ)/2, 1/2].sum / (([((0:ℤ), (0:ℤ)), (1, 0)] : List (ℤ × ℤ)).length : ℚ) * 100| ≤ 1/200 :=
  path_metrics_risk_spec 2 (fun _ => 0) (fun _ => 0) 0 [(0, 0), (1, 0)]
    (fun _ _ => 1/2) 0 1 0 1 [(1:ℚ)/2, 1/2] (1/2) _ (by simp)
    (by simp only [List.foldl_cons, List.foldl_nil]; norm_num [max_def]) rfl
    (by simp) (by norm_num [List.forall_mem_cons])

/- ----------------------------------------------------------------- -/
/- C7 and C9: heatmap generation                                      -/
/- ----------------------------------------------------------------- -/

theorem ceil_toNat_eval (q : ℚ) (n : ℕ) (h1 : (n:ℚ) - 1 < q) (h2 : q ≤ n) :
    (⌈q⌉).toNat = n := by
  have hc : ⌈q⌉ = (n:ℤ) := by
    rw [Int.ceil_eq_iff]
    constructor
    · push_cast; linarith
    · push_cast; linarith
  rw [hc]
  omega

theorem floor_eval (q : ℚ) (n : ℤ) (h1 : (n:ℚ) ≤ q) (h2 : q < n + 1) :
    ⌊q⌋ = n := by
  rw [Int.floor_eq_iff]
  exact ⟨h1, h2⟩

theorem arange_length (start stop step : ℚ) :
    (arange start stop step).length = (⌈(stop - start) / step⌉).toNat := by
  unfold arange
  rw [List.length_map, List.length_range]

theorem sum_const_range (n c : ℕ) :
    ((List.range n).map (fun _ => c)).sum = n * c := by
  induction n with
  | zero => simp
  | succ k ih =>
      rw [List.range_succ, List.map_append, List.sum_append, ih]
      simp [Nat.succ_mul]

theorem pyRound1_abs (z : ℚ) : |pyRound 1 z - z| ≤ 1/20 := by
  have h := pyRound_abs_le 1 z
  have e : (1:ℚ) / (2 * 10 ^ 1) = 1/20 := by norm_num
  rw [e] at h
  exact h

theorem level_buckets (s : ℚ) :
    ((if s < 40 then (RiskLevel.low, "#4CAF50")
      else if s < 70 then (RiskLevel.medium, "#FFC107")
      else (RiskLevel.high, "#F44336")).1 = RiskLevel.low ↔ s < 40) ∧
    ((if s < 40 then (RiskLevel.low, "#4CAF50")
      else if s < 70 then (RiskLevel.medium, "#FFC107")
      else (RiskLevel.high, "#F44336")).1 = RiskLevel.medium ↔
        40 ≤ s ∧ s < 70) ∧
    ((if s < 40 then (RiskLevel.low, "#4CAF50")
      else if s < 70 then (RiskLevel.medium, "#FFC107")
      else (RiskLevel.high, "#F44336")).1 = RiskLevel.high ↔ 70 ≤ s) := by
  split_ifs with h1 h2
  · exact ⟨iff_of_true rfl h1,
      iff_of_false (by simp) (fun hc => absurd hc.1 (not_le.mpr h1)),
      iff_of_false (by simp) (not_le.mpr (by linarith))⟩
  · exact ⟨iff_of_false (by simp) h1,
      iff_of_true rfl ⟨not_lt.mp h1, h2⟩,
      iff_of_false (by simp) (not_le.mpr h2)⟩
  · exact ⟨iff_of_false (by simp) h1,
      iff_of_false (by simp) (fun hc => h2 hc.2),
      iff_of_true rfl (not_lt.mp h2)⟩

theorem heatmap_cell_fields (lats lons : List ℚ) (kp : ℚ) (i j : ℕ)
    (r0 r1 r2 : ℚ) (raw : ℚ)
    (hraw : raw = calculate_grid_risk_score kp
      ((lats.getD i 0 + lats.getD (i + 1) 0) / 2)
      ((lons.getD j 0 + lons.getD (j + 1) 0) / 2) "normal" r0) :
    (heatmap_cell lats lons kp i j r0 r1 r2).risk_score = pyRound 1 raw ∧
    |(heatmap_cell lats lons kp i j r0 r1 r2).risk_score - raw| ≤ 1/20 ∧
    ((heatmap_cell lats lons kp i j r0 r1 r2).risk_level = RiskLevel.low ↔
      raw < 40) ∧
    ((heatmap_cell lats lons kp i j r0 r1 r2).risk_level = RiskLevel.medium ↔
      40 ≤ raw ∧ raw < 70) ∧
    ((heatmap_cell lats lons kp i j r0 r1 r2).risk_level = RiskLevel.high ↔
      70 ≤ raw) ∧
    (heatmap_cell lats lons kp i j r0 r1 r2).opacity =
      min (7/10) (raw / 150) := by
  subst hraw
  simp only [heatmap_cell]
  exact ⟨trivial, pyRound1_abs _, (level_buckets _).1, (level_buckets _).2.1,
    (level_buckets _).2.2, trivial⟩

/-- C7 (amended): every generated heatmap cell derives its risk_level,
colour and opacity from the RAW (unrounded) center score — Low iff
raw < 40, Medium iff 40 ≤ raw < 70, High iff 70 ≤ raw, opacity =
min(0.7, raw/150) — while the reported risk_score is the raw score rounded
half-even to 1 decimal (within 1/20 of raw, so it can land on the far side
of a threshold from the level); the grid has nrows*ncols cells and the
concrete bbox [-122.45,37.70,-122.40,37.75] at resolution 0.02 yields a
2×2 grid. -/
theorem heatmap_cells_spec :
    (∀ (req : HeatmapRequest) (kp : ℚ) (stream : ℕ → ℚ),
      (generate_heatmap req kp stream).features.length =
        heatmap_nrows req * heatmap_ncols req) ∧
    (∀ (req : HeatmapRequest) (kp : ℚ) (stream : ℕ → ℚ) (i j : ℕ),
      i < heatmap_nrows req → j < heatmap_ncols req →
      heatmap_feature_at req kp stream i j ∈
        (generate_heatmap req kp stream).features ∧
      (heatmap_feature_at req kp stream i j).risk_score =
        pyRound 1 (heatmap_raw req kp stream i j) ∧
      |(heatmap_feature_at req kp stream i j).risk_score -
        heatmap_raw req kp stream i j| ≤ 1/20 ∧
      ((heatmap_feature_at req kp stream i j).risk_level = RiskLevel.low ↔
        heatmap_raw req kp stream i j < 40) ∧
      ((heatmap_feature_at req kp stream i j).risk_level = RiskLevel.medium ↔
        40 ≤ heatmap_raw req kp stream i j ∧
          heatmap_raw req kp stream i j < 70) ∧
      ((heatmap_feature_at req kp stream i j).risk_level = RiskLevel.high ↔
        70 ≤ heatmap_raw req kp stream i j) ∧
      (heatmap_feature_at req kp stream i j).opacity =
        min (7/10) (heatmap_raw req kp stream i j / 150)) ∧
    (heatmap_nrows sf_request = 2 ∧ heatmap_ncols sf_request = 2) := by
  have hsf3 : (⌈(5:ℚ)/2⌉).toNat = 3 :=
    ceil_toNat_eval _ 3 (by norm_num) (by norm_num)
  refine ⟨?_, ?_, ?_, ?_⟩
  · intro req kp stream
    simp only [generate_heatmap, List.length_flatMap]
    have hcomp : (List.length ∘ fun i => (List.range (heatmap_ncols req)).map
        (fun j => heatmap_feature_at req kp stream i j)) =
        fun _ => heatmap_ncols req := by
      funext i
      simp
    rw [hcomp, sum_const_range]
  · intro req kp stream i j hi hj
    refine ⟨?_, ?_⟩
    · exact List.mem_flatMap.mpr ⟨i, List.mem_range.mpr hi,
        List.mem_map.mpr ⟨j, List.mem_range.mpr hj, rfl⟩⟩
    · exact heatmap_cell_fields (heatmap_lats req) (heatmap_lons req) kp i j
        _ _ _ _ rfl
  · show (arange (377/10) (755/20) (1/50)).length - 1 = 2
    rw [arange_length,
      show ((755:ℚ)/20 - 377/10) / (1/50) = 5/2 from by norm_num, hsf3]
  · show (arange (-2449/20) (-612/5) (1/50)).length - 1 = 2
    rw [arange_length,
      show ((-612:ℚ)/5 - -2449/20) / (1/50) = 5/2 from by norm_num, hsf3]

/-- Witness for heatmap_cells_spec at the spec's concrete request. -/
theorem heatmap_cells_spec_witness :
    heatmap_feature_at sf_request 2 (fun _ => 0) 0 0 ∈
      (generate_heatmap sf_request 2 (fun _ => 0)).features ∧
    ((heatmap_feature_at sf_request 2 (fun _ => 0) 0 0).risk_level =
      RiskLevel.low ↔ heatmap_raw sf_request 2 (fun _ => 0) 0 0 < 40) := by
  have h := heatmap_cells_spec
  have hdims := h.2.2
  have hcell := h.2.1 sf_request 2 (fun _ => 0) 0 0
    (by rw [hdims.1]; norm_num) (by rw [hdims.2]; norm_num)
  exact ⟨hcell.1, hcell.2.2.2.1⟩

/-- C7 (counterexample to the claim as stated): with kp = 5 and a
perturbation draw of 3991/7000 the single cell of cex_request has raw score
exactly 39.98, so its risk_level is Low, but its reported risk_score is
round(39.98, 1) = 40.0 — for which the claim's thresholds require Medium,
contradicting that Low holds exactly when the reported score is < 40. -/
theorem heatmap_reported_score_counterexample :
    ∃ f ∈ (generate_heatmap cex_request 5 (fun _ => 3991/7000)).features,
      f.risk_level = RiskLevel.low ∧ ¬ f.risk_score < 40 := by
  have har : arange (-1/100) (1/100) (1/100) = [-1/100, 0] := by
    have h2 : ((1:ℚ)/100 - -1/100) / (1/100) = 2 := by norm_num
    have h3 : (⌈(2:ℚ)⌉).toNat = 2 :=
      ceil_toNat_eval _ 2 (by norm_num) (by norm_num)
    simp only [arange, h2, h3]
    norm_num [List.range_succ]
  have hnr : heatmap_nrows cex_request = 1 := by
    show (arange (-1/100) (1/100) (1/100)).length - 1 = 1
    rw [har]
    rfl
  have hnc : heatmap_ncols cex_request = 1 := by
    show (arange (-1/100) (1/100) (1/100)).length - 1 = 1
    rw [har]
    rfl
  have habs : |(1/200 : ℚ)| = 1/200 := abs_of_nonneg (by norm_num)
  have hraw : heatmap_raw cex_request 5 (fun _ => 3991/7000) 0 0 =
      1999/50 := by
    simp only [heatmap_raw, heatmap_lats, heatmap_lons, cex_request, har]
    norm_num [calculate_grid_risk_score, _calculate_geomagnetic_factor,
      _get_region_factor, grid_scenario_factor, habs, min_def]
  have hf : ⌊(1999:ℚ)/50 * 10 ^ 1⌋ = 399 :=
    floor_eval _ 399 (by norm_num) (by norm_num)
  have hpy : pyRound 1 ((1999:ℚ)/50) = 40 := by
    rw [pyRound, roundHalfEven]
    rw [Int.fract, hf]
    norm_num
  have hfields := heatmap_cell_fields (heatmap_lats cex_request)
    (heatmap_lons cex_request) 5 0 0
    ((fun _ => (3991:ℚ)/7000) (3 * (0 * heatmap_ncols cex_request + 0)))
    ((fun _ => (3991:ℚ)/7000) (3 * (0 * heatmap_ncols cex_request + 0) + 1))
    ((fun _ => (3991:ℚ)/7000) (3 * (0 * heatmap_ncols cex_request + 0) + 2))
    (heatmap_raw cex_request 5 (fun _ => 3991/7000) 0 0) rfl
  refine ⟨heatmap_feature_at cex_request 5 (fun _ => 3991/7000) 0 0, ?_, ?_, ?_⟩
  · exact List.mem_flatMap.mpr ⟨0, by rw [hnr]; norm_num,
      List.mem_map.mpr ⟨0, by rw [hnc]; norm_num, rfl⟩⟩
  · exact hfields.2.2.1.mpr (by rw [hraw]; norm_num)
  · have hs : (heatmap_feature_at cex_request 5 (fun _ => 3991/7000)
        0 0).risk_score = 40 := by
      rw [show (heatmap_feature_at cex_request 5 (fun _ => 3991/7000)
        0 0).risk_score = pyRound 1 (heatmap_raw cex_request 5
          (fun _ => 3991/7000) 0 0) from hfields.1, hraw, hpy]
    rw [hs]
    norm_num

/-- C9: for a bounding box whose extent in some axis is smaller than the
(positive) resolution, generate_heatmap returns an explicitly empty feature
collection together with the full metadata (bbox, resolution, kp), without
any division. -/
theorem heatmap_degenerate_bbox (req : HeatmapRequest) (kp : ℚ)
    (stream : ℕ → ℚ) (hres : 0 < req.resolution)
    (hdeg : req.max_lat - req.min_lat < req.resolution ∨
      req.max_lon - req.min_lon < req.resolution) :
    (generate_heatmap req kp stream).features = [] ∧
    (generate_heatmap req kp stream).bbox =
      (req.min_lon, req.min_lat, req.max_lon, req.max_lat) ∧
    (generate_heatmap req kp stream).resolution = req.resolution ∧
    (generate_heatmap req kp stream).kp_index = kp := by
  refine ⟨?_, rfl, rfl, rfl⟩
  have harange : ∀ start stop : ℚ, stop - start < req.resolution →
      (arange start stop req.resolution).length ≤ 1 := by
    intro start stop h
    rw [arange_length]
    have hq : (stop - start) / req.resolution < 1 := by
      rw [div_lt_one hres]
      linarith
    have hc : ⌈(stop - start) / req.resolution⌉ ≤ 1 := by
      apply Int.ceil_le.mpr
      push_cast
      linarith
    omega
  rcases hdeg with h | h
  · have h0 : heatmap_nrows req = 0 := by
      have := harange req.min_lat req.max_lat h
      unfold heatmap_nrows heatmap_lats
      omega
    simp [generate_heatmap, h0]
  · have h0 : heatmap_ncols req = 0 := by
      have := harange req.min_lon req.max_lon h
      unfold heatmap_ncols heatmap_lons
      omega
    simp [generate_heatmap, h0]

/-- Witness for heatmap_degenerate_bbox on a bbox with latitude extent
1/1000 and resolution 1/100. -/
theorem heatmap_degenerate_bbox_witness :
    (generate_heatmap ⟨0, 0, 1, 1/1000, 1/100⟩ 2 (fun _ => 0)).features = [] ∧
    (generate_heatmap ⟨0, 0, 1, 1/1000, 1/100⟩ 2 (fun _ => 0)).bbox =
      (0, 0, 1, 1/1000) ∧
    (generate_heatmap ⟨0, 0, 1, 1/1000, 1/100⟩ 2 (fun _ => 0)).resolution =
      1/100 ∧
    (generate_heatmap ⟨0, 0, 1, 1/1000, 1/100⟩ 2 (fun _ => 0)).kp_index = 2 :=
  heatmap_degenerate_bbox ⟨0, 0, 1, 1/1000, 1/100⟩ 2 (fun _ => 0)
    (by norm_num) (Or.inl (by norm_num))

/- ----------------------------------------------------------------- -/
/- C8: find_routes fallback when A* finds no path                     -/
/- ----------------------------------------------------------------- -/

/-- C8: when the A* search finds no path for either lambda (0.1 and 1.0),
find_routes still succeeds and returns "normal" and "safe" variants whose
path is exactly the 2-point straight line [start, end] with finite constant
metrics (distance 1000 m, time 67 s, risk 30, zone Low): the straight-line
branch raises NameError on the unbound name normal_coords and the
surrounding except handler returns the constant fallback routes. -/
theorem find_routes_no_route_fallback (N : ℕ) (astar : AStarFun)
    (cosf sqrtf : ℚ → ℚ) (piQ : ℚ) (req : RouteRequest) (kp : ℚ)
    (stream : ℕ → ℚ)
    (h1 : astar (fr_start_grid N req) (fr_end_grid N req)
      (fr_risk_grid N req kp stream) (1/10) = none)
    (h2 : astar (fr_start_grid N req) (fr_end_grid N req)
      (fr_risk_grid N req kp stream) 1 = none) :
    (find_routes N astar cosf sqrtf piQ req kp stream).normal =
      some { path := [req.start, req.endp], distance_m := 1000,
             estimated_time_s := 67, total_risk_score := 30,
             max_risk_zone := RiskLevel.low } ∧
    (find_routes N astar cosf sqrtf piQ req kp stream).safe =
      some { path := [req.start, req.endp], distance_m := 1000,
             estimated_time_s := 67, total_risk_score := 30,
             max_risk_zone := RiskLevel.low } := by
  have h1i : astar (fr_start_grid N req) (fr_end_grid N req)
      (fr_risk_grid N req kp stream) (10⁻¹) = none := by
    rw [← one_div]
    exact h1
  constructor <;>
    simp [find_routes, find_routes_inner, h1i, h2, route_fallback]

/-- Witness for find_routes_no_route_fallback with a 2×2 grid and a search
function that always reports no path. -/
theorem find_routes_no_route_fallback_witness :
    (find_routes 2 (fun _ _ _ _ => none) (fun _ => 0) (fun _ => 0) 0
      ⟨(0, 0), (1, 1)⟩ 2 (fun _ => 0)).normal =
      some { path := [((0:ℚ), (0:ℚ)), (1, 1)], distance_m := 1000,
             estimated_time_s := 67, total_risk_score := 30,
             max_risk_zone := RiskLevel.low } ∧
    (find_routes 2 (fun _ _ _ _ => none) (fun _ => 0) (fun _ => 0) 0
      ⟨(0, 0), (1, 1)⟩ 2 (fun _ => 0)).safe =
      some { path := [((0:ℚ), (0:ℚ)), (1, 1)], distance_m := 1000,
             estimated_time_s := 67, total_risk_score := 30,
             max_risk_zone := RiskLevel.low } :=
  find_routes_no_route_fallback 2 (fun _ _ _ _ => none) (fun _ => 0)
    (fun _ => 0) 0 ⟨(0, 0), (1, 1)⟩ 2 (fun _ => 0) rfl rfl

/- ----------------------------------------------------------------- -/
/- C2 and C3: GPS failure simulation                                  -/
/- ----------------------------------------------------------------- -/

/-- C2: the drift parameters generated by _calculate_drift_parameters for
identical inputs (risk level low, severity "medium") depend on the draws of
the process-global random module — two different draw sequences give
systematic_bias -1/10 and 0 — and since the code never seeds that module and
GPSFailureSimulation carries no seed field, two runs with identical inputs
are not computed from the inputs alone, contradicting the claimed
input-derived seeding.  (piQ, the value of math.pi, is irrelevant to the
bias.) -/
theorem drift_params_hidden_rng (piQ : ℚ) :
    (calculate_drift_parameters piQ RiskLevel.low "medium"
      (fun _ => 0)).systematic_bias = -1/10 ∧
    (calculate_drift_parameters piQ RiskLevel.low "medium"
      (fun _ => 1/2)).systematic_bias = 0 ∧
    (-1/10 : ℚ) ≠ 0 := by
  refine ⟨?_, ?_, by norm_num⟩ <;>
    · simp [calculate_drift_parameters]
      try norm_num

/-- C3: simulate_gps_failure raises AttributeError for every duration of at
least 5 seconds (here 60 s, so the drift path has 13 points), because
_calculate_total_drift evaluates the nonexistent attribute math.PI (Python
has math.pi) on every segment; the total drift and drift rate are never
produced.  Shown at a concrete input with all trig/sqrt oracles constant
and a constant draw stream. -/
theorem simulate_gps_failure_math_PI_crash :
    simulate_gps_failure (314159/100000) (fun _ => 0) (fun _ => 0)
      (fun _ => 0)
      { risk_level := RiskLevel.low, severity := "medium",
        start_position := (0, 0), duration_seconds := 60 }
      (fun _ => 1/2) =
    Except.error "AttributeError: module math has no attribute PI" := by
  rfl

end StellarRoute
